import Mathlib

/-!
Shallow embedding of `yocto_exporter.py` (a Prometheus exporter for
YoctoPuce sensor modules), covering the metric store, the collection
cycle `collect_gauges`, and the scheduling loop in `main`.

Sensor values are modelled as rationals, label values as strings.
The six sensor-value gauges declared at module level in the source
(`usb_current`, `luminosity`, `pressure`, `temperature`, `humidity`,
`light`) all carry the label pair (hardware_id, unit); they are modelled
as one map keyed by gauge identity and the two label values.
-/

namespace YoctoExporter

/-- The six module-level sensor-value gauge objects of the source. -/
inductive GaugeId where
  | usb_current
  | luminosity
  | pressure
  | temperature
  | humidity
  | light
deriving DecidableEq, Repr

/-- The metric store: the current value of every published series.
`gauges` holds the six sensor-value gauges, keyed by gauge identity,
`hardware_id` label and `unit` label; `sensor_read_time` is the duration
gauge keyed by its `unit` label; the two counters are naturals.
A key that was never set maps to `none` (no series published yet). -/
structure Store where
  gauges : GaugeId → String → String → Option ℚ
  sensor_read_time : String → Option ℚ
  sensor_read_passes : ℕ
  yapi_exceptions : ℕ

/-- The store at process start: no series published, counters at zero. -/
def emptyStore : Store :=
  { gauges := fun _ _ _ => none
    sensor_read_time := fun _ => none
    sensor_read_passes := 0
    yapi_exceptions := 0 }

/-- `gauge.labels(hardware_id=hid, unit=unit).set(v)`: replaces the value
of the one series keyed (g, hid, unit), leaving every other series and
the bookkeeping fields unchanged. -/
def setGauge (s : Store) (g : GaugeId) (hid unit : String) (v : ℚ) : Store :=
  { s with gauges := fun g' h' u' =>
      if g' = g ∧ h' = hid ∧ u' = unit then some v else s.gauges g' h' u' }

/-- One sub-function of a module, as read from the device: its type tag
(the string returned by `module.functionType`) and its current value
(the number returned by `module.functionValue`). -/
structure Fn where
  ftype : String
  value : ℚ
deriving DecidableEq, Repr

/-- One enumerated module, with the per-module values `collect_gauges`
reads from the device layer: friendly name, serial number, USB current
draw, beacon luminosity, and the ordered list of its functions
(index 0 first; `functionCount` is the length of `functions`). -/
structure YModule where
  serial : String
  friendlyName : String
  usbCurrent : ℚ
  luminosity : ℚ
  functions : List Fn
deriving DecidableEq, Repr

/-- Body of the `for function_id in range(1, function_count)` loop in
`collect_gauges` (source lines 148-168): four successive `if` tests on
the type tag, each setting the corresponding gauge at the synthesized
hardware_id `<module_name>.<suffix>`. -/
def processFunction (module_name : String) (s : Store) (f : Fn) : Store :=
  let s := if f.ftype = "Temperature" then
      setGauge s GaugeId.temperature (module_name ++ ".temperature") "Celsius" f.value
    else s
  let s := if f.ftype = "Pressure" then
      setGauge s GaugeId.pressure (module_name ++ ".pressure") "mbar" f.value
    else s
  let s := if f.ftype = "Humidity" then
      setGauge s GaugeId.humidity (module_name ++ ".humidity") "% RH" f.value
    else s
  if f.ftype = "LightSensor" then
    setGauge s GaugeId.light (module_name ++ ".light") "lux" f.value
  else s

/-- Body of the `while module:` loop in `collect_gauges` (source lines
134-170): set the usb_current and luminosity gauges for the module, then
iterate over functions 1..functionCount-1 (`range(1, function_count)`,
modelled as `functions.drop 1`; index 0 is the datalogger and skipped). -/
def processModule (s : Store) (m : YModule) : Store :=
  let module_name := m.friendlyName
  let s := setGauge s GaugeId.usb_current (module_name ++ ".current") "mA" m.usbCurrent
  let s := setGauge s GaugeId.luminosity (module_name ++ ".luminosity") "%" m.luminosity
  (m.functions.drop 1).foldl (processFunction module_name) s

/-- `collect_gauges` on a successful cycle (source lines 129-175): the
enumeration `FirstModule` / `nextModule` yields `mods` in order; after
the module loop, set the duration gauge (labeled unit "s") to the
elapsed wall-clock time `duration` and increment the pass counter.
Wall-clock time is outside the embedding, so the measured duration is a
parameter. -/
def collect_gauges (mods : List YModule) (duration : ℚ) (s : Store) : Store :=
  let s := mods.foldl processModule s
  let s := { s with sensor_read_time := fun u =>
      if u = "s" then some duration else s.sensor_read_time u }
  { s with sensor_read_passes := s.sensor_read_passes + 1 }

/-- One `.labels(...).set(...)` call recorded as data: which gauge, the
hardware_id label, the unit label, and the value written. -/
structure Write where
  gauge : GaugeId
  hid : String
  unit : String
  value : ℚ
deriving DecidableEq, Repr

/-- The series key a write targets: (metric name, label set). -/
def writeKey (w : Write) : GaugeId × String × String :=
  (w.gauge, w.hid, w.unit)

/-- Replay one recorded write against the store. -/
def applyWrite (s : Store) (w : Write) : Store :=
  setGauge s w.gauge w.hid w.unit w.value

/-- Replay a list of recorded writes, in order. -/
def applyWrites (s : Store) (ws : List Write) : Store :=
  ws.foldl applyWrite s

/-- The gauge writes the function-loop body performs for one function:
the same four type tests as `processFunction`, recorded as data. -/
def fnWrites (module_name : String) (f : Fn) : List Write :=
  (if f.ftype = "Temperature" then
      [Write.mk GaugeId.temperature (module_name ++ ".temperature") "Celsius" f.value]
    else []) ++
  (if f.ftype = "Pressure" then
      [Write.mk GaugeId.pressure (module_name ++ ".pressure") "mbar" f.value]
    else []) ++
  (if f.ftype = "Humidity" then
      [Write.mk GaugeId.humidity (module_name ++ ".humidity") "% RH" f.value]
    else []) ++
  (if f.ftype = "LightSensor" then
      [Write.mk GaugeId.light (module_name ++ ".light") "lux" f.value]
    else [])

/-- The ordered gauge writes `collect_gauges` performs for one module:
usb_current, then luminosity, then the function-loop writes. -/
def moduleWrites (m : YModule) : List Write :=
  Write.mk GaugeId.usb_current (m.friendlyName ++ ".current") "mA" m.usbCurrent ::
  Write.mk GaugeId.luminosity (m.friendlyName ++ ".luminosity") "%" m.luminosity ::
  (m.functions.drop 1).flatMap (fnWrites m.friendlyName)

/-- The ordered gauge writes of one full cycle over `mods`. -/
def cycleWrites (mods : List YModule) : List Write :=
  mods.flatMap moduleWrites

/-- `collect_gauges` aborted by a `YAPI_Exception` after its first `k`
gauge writes. Every device-layer call inside the loop (`FirstModule`,
`get_friendlyName`, `get_usbCurrent`, `get_luminosity`, `functionCount`,
`functionType`, `functionValue`, `nextModule`) may raise, and between
any two consecutive gauge writes at least one such call occurs, so every
prefix of the write trace is a reachable abort state. The duration gauge
and the pass counter at lines 172-175 are never reached. -/
def collect_gauges_aborted (mods : List YModule) (k : ℕ) (s : Store) : Store :=
  applyWrites s ((cycleWrites mods).take k)

/-- What the device layer does during one invocation of
`collect_gauges`: either the whole enumeration succeeds (yielding the
module list and the measured duration), or a `YAPI_Exception` is raised
after the first `k` gauge writes of the cycle trace. -/
inductive DevOutcome where
  | ok (mods : List YModule) (duration : ℚ)
  | err (mods : List YModule) (k : ℕ)
deriving Repr

/-- Run `collect_gauges` under a device outcome: `Except.ok` is normal
return; `Except.error` carries the store state at the moment the
`YAPI_Exception` propagates out of `collect_gauges`. -/
def collect_gauges_run : DevOutcome → Store → Except Store Store
  | DevOutcome.ok mods d, s => Except.ok (collect_gauges mods d s)
  | DevOutcome.err mods k, s => Except.error (collect_gauges_aborted mods k s)

/-- One iteration of the `while True:` loop in `main` (source lines
198-204): call `collect_gauges`; on `YAPI_Exception`, catch it and
increment the `yapi_exceptions` counter. The iteration always yields a
store: the exception never escapes the loop body. -/
def loop_iteration (o : DevOutcome) (s : Store) : Store :=
  match collect_gauges_run o s with
  | Except.ok s' => s'
  | Except.error s' =>
      { s' with yapi_exceptions := s'.yapi_exceptions + 1 }

/-- The pre-load call `collect_gauges()` at source line 195, which sits
outside any try/except: on success the process continues with the
updated store; on `YAPI_Exception` the exception propagates out of
`main` uncaught and the process terminates, modelled as `none`. -/
def preload_cycle (o : DevOutcome) (s : Store) : Option Store :=
  match collect_gauges_run o s with
  | Except.ok s' => some s'
  | Except.error _ => none

/-- A run of the collection loop over a sequence of per-cycle device
outcomes. -/
def run_loop (os : List DevOutcome) (s : Store) : Store :=
  os.foldl (fun s o => loop_iteration o s) s

/-- The type tags the function loop exports; any other tag is silently
ignored. -/
def supportedType (t : String) : Bool :=
  t = "Temperature" || t = "Pressure" || t = "Humidity" || t = "LightSensor"

/-- The value of the last write in `ws` targeting series (g, h, u), if
any write in `ws` targets it. -/
def lastVal (g : GaugeId) (h u : String) : List Write → Option ℚ
  | [] => none
  | w :: ws =>
      match lastVal g h u ws with
      | some v => some v
      | none => if g = w.gauge ∧ h = w.hid ∧ u = w.unit then some w.value else none

/-- The series keys `fnWrites` would target, computed from the module
name and the type tag alone. -/
def fnKeys (module_name : String) (t : String) : List (GaugeId × String × String) :=
  (if t = "Temperature" then
      [(GaugeId.temperature, module_name ++ ".temperature", "Celsius")] else []) ++
  (if t = "Pressure" then
      [(GaugeId.pressure, module_name ++ ".pressure", "mbar")] else []) ++
  (if t = "Humidity" then
      [(GaugeId.humidity, module_name ++ ".humidity", "% RH")] else []) ++
  (if t = "LightSensor" then
      [(GaugeId.light, module_name ++ ".light", "lux")] else [])

/-- The series keys one module's writes target, computed from its
friendly name and its function type tags alone. -/
def moduleKeys (module_name : String) (tys : List String) :
    List (GaugeId × String × String) :=
  (GaugeId.usb_current, module_name ++ ".current", "mA") ::
  (GaugeId.luminosity, module_name ++ ".luminosity", "%") ::
  tys.flatMap (fnKeys module_name)

/-! Bridging lemmas between the direct definitions and the write trace. -/

theorem applyWrites_append (s : Store) (xs ys : List Write) :
    applyWrites s (xs ++ ys) = applyWrites (applyWrites s xs) ys := by
  simp [applyWrites, List.foldl_append]

theorem processFunction_eq_applyWrites (n : String) (s : Store) (f : Fn) :
    processFunction n s f = applyWrites s (fnWrites n f) := by
  unfold processFunction fnWrites
  by_cases h1 : f.ftype = "Temperature" <;>
    by_cases h2 : f.ftype = "Pressure" <;>
    by_cases h3 : f.ftype = "Humidity" <;>
    by_cases h4 : f.ftype = "LightSensor" <;>
    simp [h1, h2, h3, h4, applyWrites, applyWrite]

theorem foldl_processFunction_eq (n : String) (l : List Fn) (s : Store) :
    l.foldl (processFunction n) s = applyWrites s (l.flatMap (fnWrites n)) := by
  induction l generalizing s with
  | nil => rfl
  | cons f l ih =>
      simp only [List.foldl_cons, List.flatMap_cons, applyWrites_append, ih,
        processFunction_eq_applyWrites]

theorem processModule_eq_applyWrites (s : Store) (m : YModule) :
    processModule s m = applyWrites s (moduleWrites m) := by
  unfold processModule moduleWrites
  simp only [foldl_processFunction_eq, applyWrites, List.foldl_cons, applyWrite]

theorem foldl_processModule_eq (mods : List YModule) (s : Store) :
    mods.foldl processModule s = applyWrites s (cycleWrites mods) := by
  induction mods generalizing s with
  | nil => rfl
  | cons m mods ih =>
      simp only [List.foldl_cons, cycleWrites, List.flatMap_cons, applyWrites_append,
        processModule_eq_applyWrites, ih]

/-! Frame lemmas: gauge writes never touch the bookkeeping fields. -/

theorem applyWrites_sensor_read_time (s : Store) (ws : List Write) :
    (applyWrites s ws).sensor_read_time = s.sensor_read_time := by
  induction ws generalizing s with
  | nil => rfl
  | cons w ws ih => simp [applyWrites, List.foldl_cons] at ih ⊢; rw [ih]; rfl

theorem applyWrites_sensor_read_passes (s : Store) (ws : List Write) :
    (applyWrites s ws).sensor_read_passes = s.sensor_read_passes := by
  induction ws generalizing s with
  | nil => rfl
  | cons w ws ih => simp [applyWrites, List.foldl_cons] at ih ⊢; rw [ih]; rfl

theorem applyWrites_yapi_exceptions (s : Store) (ws : List Write) :
    (applyWrites s ws).yapi_exceptions = s.yapi_exceptions := by
  induction ws generalizing s with
  | nil => rfl
  | cons w ws ih => simp [applyWrites, List.foldl_cons] at ih ⊢; rw [ih]; rfl

/-! Pointwise characterization of replayed writes. -/

theorem applyWrites_gauges (g : GaugeId) (h u : String) (ws : List Write)
    (s : Store) :
    (applyWrites s ws).gauges g h u =
      match lastVal g h u ws with
      | some v => some v
      | none => s.gauges g h u := by
  induction ws generalizing s with
  | nil => rfl
  | cons w ws ih =>
      show (applyWrites (applyWrite s w) ws).gauges g h u = _
      rw [ih]
      simp only [lastVal]
      cases lastVal g h u ws with
      | some v => rfl
      | none =>
          simp only [applyWrite, setGauge]
          by_cases hc : g = w.gauge ∧ h = w.hid ∧ u = w.unit <;> simp [hc]

theorem applyWrites_gauges_idem (s : Store) (ws : List Write) :
    (applyWrites (applyWrites s ws) ws).gauges = (applyWrites s ws).gauges := by
  funext g h u
  rw [applyWrites_gauges, applyWrites_gauges]
  cases hl : lastVal g h u ws with
  | some v => rfl
  | none => rfl

/-! Counting lemmas for the function loop. -/

theorem fnWrites_length (n : String) (f : Fn) :
    (fnWrites n f).length = if supportedType f.ftype then 1 else 0 := by
  unfold fnWrites supportedType
  by_cases h1 : f.ftype = "Temperature" <;>
    by_cases h2 : f.ftype = "Pressure" <;>
    by_cases h3 : f.ftype = "Humidity" <;>
    by_cases h4 : f.ftype = "LightSensor" <;>
    simp [h1, h2, h3, h4]

theorem fnWrites_unsupported (n : String) (f : Fn)
    (h : supportedType f.ftype = false) : fnWrites n f = [] := by
  unfold supportedType at h
  simp only [Bool.or_eq_false_iff, decide_eq_false_iff_not] at h
  unfold fnWrites
  simp [h.1.1.1, h.1.1.2, h.1.2, h.2]

theorem flatMap_fnWrites_length (n : String) (l : List Fn) :
    (l.flatMap (fnWrites n)).length =
      (l.filter fun f => supportedType f.ftype).length := by
  induction l with
  | nil => rfl
  | cons f l ih =>
      rw [List.flatMap_cons, List.length_append, fnWrites_length, ih,
        List.filter_cons]
      cases supportedType f.ftype <;> simp [Nat.add_comm]

theorem moduleWrites_length (m : YModule) :
    (moduleWrites m).length =
      2 + ((m.functions.drop 1).filter fun f => supportedType f.ftype).length := by
  unfold moduleWrites
  rw [List.length_cons, List.length_cons, flatMap_fnWrites_length]
  omega

/-! lastVal computation lemmas. -/

theorem lastVal_append (g : GaugeId) (h u : String) (xs ys : List Write) :
    lastVal g h u (xs ++ ys) =
      match lastVal g h u ys with
      | some v => some v
      | none => lastVal g h u xs := by
  induction xs with
  | nil =>
      cases hys : lastVal g h u ys <;> simp [lastVal, hys]
  | cons w xs ih =>
      simp only [List.cons_append, lastVal, List.append_eq, ih]
      cases hys : lastVal g h u ys <;> cases hxs : lastVal g h u xs <;>
        simp [hys, hxs]

theorem lastVal_temp_fnWrites (n : String) (f : Fn) :
    lastVal GaugeId.temperature (n ++ ".temperature") "Celsius" (fnWrites n f) =
      if f.ftype = "Temperature" then some f.value else none := by
  unfold fnWrites
  by_cases h1 : f.ftype = "Temperature" <;>
    by_cases h2 : f.ftype = "Pressure" <;>
    by_cases h3 : f.ftype = "Humidity" <;>
    by_cases h4 : f.ftype = "LightSensor" <;>
    simp [h1, h2, h3, h4, lastVal]

theorem lastVal_temp_flatMap_none (n : String) (l : List Fn)
    (hall : ∀ g ∈ l, g.ftype ≠ "Temperature") :
    lastVal GaugeId.temperature (n ++ ".temperature") "Celsius"
      (l.flatMap (fnWrites n)) = none := by
  induction l with
  | nil => rfl
  | cons f l ih =>
      rw [List.flatMap_cons, lastVal_append, ih]
      · rw [lastVal_temp_fnWrites, if_neg (hall f (List.mem_cons_self f l))]
      · exact fun g hg => hall g (List.mem_cons_of_mem f hg)

/-! Field lemmas for a successful cycle. -/

theorem collect_gauges_gauges (mods : List YModule) (d : ℚ) (s : Store) :
    (collect_gauges mods d s).gauges = (applyWrites s (cycleWrites mods)).gauges := by
  simp only [collect_gauges, foldl_processModule_eq]

theorem collect_gauges_passes (mods : List YModule) (d : ℚ) (s : Store) :
    (collect_gauges mods d s).sensor_read_passes = s.sensor_read_passes + 1 := by
  simp only [collect_gauges, foldl_processModule_eq, applyWrites_sensor_read_passes]

theorem collect_gauges_yapi (mods : List YModule) (d : ℚ) (s : Store) :
    (collect_gauges mods d s).yapi_exceptions = s.yapi_exceptions := by
  simp only [collect_gauges, foldl_processModule_eq, applyWrites_yapi_exceptions]

theorem applyWrites_gauges_congr (s t : Store) (hst : s.gauges = t.gauges)
    (ws : List Write) :
    (applyWrites s ws).gauges = (applyWrites t ws).gauges := by
  funext g h u
  rw [applyWrites_gauges, applyWrites_gauges]
  cases lastVal g h u ws with
  | some v => rfl
  | none => rw [hst]

/-- Per-iteration counter evolution of the collection loop. -/
theorem loop_iteration_counters (o : DevOutcome) (s : Store) :
    s.sensor_read_passes ≤ (loop_iteration o s).sensor_read_passes ∧
    s.yapi_exceptions ≤ (loop_iteration o s).yapi_exceptions := by
  cases o with
  | ok mods d =>
      show s.sensor_read_passes ≤ (collect_gauges mods d s).sensor_read_passes ∧
        s.yapi_exceptions ≤ (collect_gauges mods d s).yapi_exceptions
      rw [collect_gauges_passes, collect_gauges_yapi]
      omega
  | err mods k =>
      show s.sensor_read_passes ≤
          (collect_gauges_aborted mods k s).sensor_read_passes ∧
        s.yapi_exceptions ≤ (collect_gauges_aborted mods k s).yapi_exceptions + 1
      unfold collect_gauges_aborted
      rw [applyWrites_sensor_read_passes, applyWrites_yapi_exceptions]
      omega

/-! Key lemmas: which series a module's writes target. -/

theorem map_writeKey_fnWrites (n : String) (f : Fn) :
    (fnWrites n f).map writeKey = fnKeys n f.ftype := by
  unfold fnWrites fnKeys
  by_cases h1 : f.ftype = "Temperature" <;>
    by_cases h2 : f.ftype = "Pressure" <;>
    by_cases h3 : f.ftype = "Humidity" <;>
    by_cases h4 : f.ftype = "LightSensor" <;>
    simp [h1, h2, h3, h4, writeKey]

theorem map_writeKey_moduleWrites (m : YModule) :
    (moduleWrites m).map writeKey =
      moduleKeys m.friendlyName ((m.functions.drop 1).map Fn.ftype) := by
  unfold moduleWrites moduleKeys
  simp only [List.map_cons, List.map_flatMap, map_writeKey_fnWrites,
    List.flatMap_map, writeKey]

/-- A function of a supported Temperature type at any index from 1 on
contributes a write at the synthesized temperature series key. -/
theorem temp_write_mem (m : YModule) (f : Fn)
    (hf : f ∈ m.functions.drop 1) (ht : f.ftype = "Temperature") :
    Write.mk GaugeId.temperature (m.friendlyName ++ ".temperature") "Celsius"
      f.value ∈ moduleWrites m := by
  unfold moduleWrites
  refine List.mem_cons_of_mem _ (List.mem_cons_of_mem _ ?_)
  rw [List.mem_flatMap]
  refine ⟨f, hf, ?_⟩
  rw [fnWrites, ht]
  simp

/-! Claim theorems. -/

/-- C1 counterexample: a DeviceAccessError raised partway through a
cycle does NOT leave every sensor-value series at its pre-cycle value.
With two modules enumerated and the exception raised after the first
two gauge writes (i.e. while reading module B), the usb_current series
of module A already holds the value written by the aborted cycle,
differing from its pre-cycle (absent) value. -/
theorem aborted_cycle_overwrites_sensor_series :
    (loop_iteration
        (DevOutcome.err
          [YModule.mk "SER-A" "A" 38 2 [], YModule.mk "SER-B" "B" 5 1 []] 2)
        emptyStore).gauges GaugeId.usb_current "A.current" "mA" ≠
      emptyStore.gauges GaugeId.usb_current "A.current" "mA" := by
  decide

/-- C1 (amended): on a cycle aborted by a DeviceAccessError after k
gauge writes, a sensor-value series that none of those k writes targeted
retains exactly its pre-cycle value, while a series that was written
holds the last value the aborted cycle wrote to it; the abort skips the
remainder of the cycle but does not roll back writes already made. -/
theorem aborted_cycle_gauge_characterization (mods : List YModule) (k : ℕ)
    (s : Store) (g : GaugeId) (h u : String) :
    (loop_iteration (DevOutcome.err mods k) s).gauges g h u =
      match lastVal g h u ((cycleWrites mods).take k) with
      | some v => some v
      | none => s.gauges g h u := by
  show (collect_gauges_aborted mods k s).gauges g h u = _
  exact applyWrites_gauges g h u _ s

/-- C2 counterexample: on a cycle aborted by a DeviceAccessError, the
sensor_read_passes counter does NOT increment: the increment sits after
the module loop in collect_gauges and is never reached. -/
theorem aborted_cycle_pass_counter_not_incremented :
    ¬ (loop_iteration (DevOutcome.err [] 0) emptyStore).sensor_read_passes =
        emptyStore.sensor_read_passes + 1 := by
  decide

/-- C2 (amended): for every cycle in which a DeviceAccessError is raised
partway through, the yapi_exceptions counter increments by exactly one,
and the sensor_read_passes counter does not change (it increments only
on cycles that run to completion). -/
theorem aborted_cycle_counters (mods : List YModule) (k : ℕ) (s : Store) :
    (loop_iteration (DevOutcome.err mods k) s).yapi_exceptions =
        s.yapi_exceptions + 1 ∧
      (loop_iteration (DevOutcome.err mods k) s).sensor_read_passes =
        s.sensor_read_passes := by
  constructor
  · show (collect_gauges_aborted mods k s).yapi_exceptions + 1 = _
    unfold collect_gauges_aborted
    rw [applyWrites_yapi_exceptions]
  · show (collect_gauges_aborted mods k s).sensor_read_passes = _
    unfold collect_gauges_aborted
    rw [applyWrites_sensor_read_passes]

/-- C3 counterexample: the synchronous pre-load cycle is NOT protected:
the collect_gauges call before the loop sits outside any try/except, so
a DeviceAccessError raised there propagates out of main and terminates
the process (modelled as the pre-load yielding no store). -/
theorem preload_error_kills_process :
    preload_cycle (DevOutcome.err [] 0) emptyStore = none := rfl

/-- C3 (amended): within the periodic loop, a cycle-level
DeviceAccessError never terminates the loop: the iteration completes
with the partial store and the exception counted, and the run proceeds
with the remaining iterations; the one synchronous pre-load cycle,
however, is unprotected, and a DeviceAccessError there terminates the
process. -/
theorem loop_survives_device_error (mods : List YModule) (k : ℕ) (s : Store)
    (os : List DevOutcome) :
    run_loop (DevOutcome.err mods k :: os) s =
        run_loop os (loop_iteration (DevOutcome.err mods k) s) ∧
      loop_iteration (DevOutcome.err mods k) s =
        { collect_gauges_aborted mods k s with
            yapi_exceptions := (collect_gauges_aborted mods k s).yapi_exceptions + 1 } ∧
      preload_cycle (DevOutcome.err mods k) s = none :=
  ⟨rfl, rfl, rfl⟩

/-- C4: one collection pass over a module with N functions performs
exactly 2 + |{indices 1..N-1 with a supported type tag}| series writes;
the writes depend only on the friendly name, the two module-internal
values and the functions from index 1 on (so function index 0 is never
inspected, and neither is the serial); unsupported types emit nothing;
and a module with zero functions contributes only the usb_current and
luminosity writes. -/
theorem moduleWrites_count_and_skips (m m' : YModule)
    (hn : m.friendlyName = m'.friendlyName)
    (hc : m.usbCurrent = m'.usbCurrent)
    (hl : m.luminosity = m'.luminosity)
    (hf : m.functions.drop 1 = m'.functions.drop 1) :
    (moduleWrites m).length =
        2 + ((m.functions.drop 1).filter fun f => supportedType f.ftype).length ∧
      moduleWrites m = moduleWrites m' ∧
      (∀ f, supportedType f.ftype = false → fnWrites m.friendlyName f = []) ∧
      (m.functions = [] →
        moduleWrites m =
          [Write.mk GaugeId.usb_current (m.friendlyName ++ ".current") "mA"
              m.usbCurrent,
            Write.mk GaugeId.luminosity (m.friendlyName ++ ".luminosity") "%"
              m.luminosity]) := by
  refine ⟨moduleWrites_length m, ?_, fun f h => fnWrites_unsupported _ f h, ?_⟩
  · unfold moduleWrites
    rw [hn, hc, hl, hf]
  · intro h0
    unfold moduleWrites
    rw [h0]
    rfl

/-- Witness for C4 at a zero-function module and a companion differing
only in serial and in the (never inspected) function list head. -/
theorem moduleWrites_count_and_skips_witness :
    ((YModule.mk "S1" "mod" 10 3 []).friendlyName =
        (YModule.mk "S2" "mod" 10 3 [Fn.mk "Whatever" 5]).friendlyName ∧
      (YModule.mk "S1" "mod" 10 3 []).functions.drop 1 =
        (YModule.mk "S2" "mod" 10 3 [Fn.mk "Whatever" 5]).functions.drop 1) ∧
      (moduleWrites (YModule.mk "S1" "mod" 10 3 [])).length = 2 ∧
      moduleWrites (YModule.mk "S1" "mod" 10 3 []) =
        moduleWrites (YModule.mk "S2" "mod" 10 3 [Fn.mk "Whatever" 5]) ∧
      fnWrites "mod" (Fn.mk "Foo" 1) = [] ∧
      moduleWrites (YModule.mk "S1" "mod" 10 3 []) =
        [Write.mk GaugeId.usb_current "mod.current" "mA" 10,
          Write.mk GaugeId.luminosity "mod.luminosity" "%" 3] := by
  have h := moduleWrites_count_and_skips (YModule.mk "S1" "mod" 10 3 [])
    (YModule.mk "S2" "mod" 10 3 [Fn.mk "Whatever" 5]) rfl rfl rfl rfl
  exact ⟨⟨rfl, rfl⟩, h.1, h.2.1, h.2.2.1 (Fn.mk "Foo" 1) (by decide),
    h.2.2.2 rfl⟩

/-- C5: for one module with friendly name sensorA, function 0 a
datalogger, function 1 of type Temperature with value 21.5, current
draw 38 and luminosity 2, one collection pass publishes exactly
usb_current(sensorA.current, mA) = 38, luminosity(sensorA.luminosity,
%) = 2 and temperature(sensorA.temperature, Celsius) = 21.5, and no
pressure, humidity or light series at all. -/
theorem sensorA_scenario (d : ℚ) :
    ((collect_gauges
        [YModule.mk "SERIAL-A" "sensorA" 38 2
          [Fn.mk "DataLogger" 0, Fn.mk "Temperature" (21.5 : ℚ)]] d
        emptyStore).gauges GaugeId.usb_current "sensorA.current" "mA" =
        some 38) ∧
      ((collect_gauges
        [YModule.mk "SERIAL-A" "sensorA" 38 2
          [Fn.mk "DataLogger" 0, Fn.mk "Temperature" (21.5 : ℚ)]] d
        emptyStore).gauges GaugeId.luminosity "sensorA.luminosity" "%" =
        some 2) ∧
      ((collect_gauges
        [YModule.mk "SERIAL-A" "sensorA" 38 2
          [Fn.mk "DataLogger" 0, Fn.mk "Temperature" (21.5 : ℚ)]] d
        emptyStore).gauges GaugeId.temperature "sensorA.temperature" "Celsius" =
        some (21.5 : ℚ)) ∧
      (∀ h u, (collect_gauges
        [YModule.mk "SERIAL-A" "sensorA" 38 2
          [Fn.mk "DataLogger" 0, Fn.mk "Temperature" (21.5 : ℚ)]] d
        emptyStore).gauges GaugeId.pressure h u = none) ∧
      (∀ h u, (collect_gauges
        [YModule.mk "SERIAL-A" "sensorA" 38 2
          [Fn.mk "DataLogger" 0, Fn.mk "Temperature" (21.5 : ℚ)]] d
        emptyStore).gauges GaugeId.humidity h u = none) ∧
      (∀ h u, (collect_gauges
        [YModule.mk "SERIAL-A" "sensorA" 38 2
          [Fn.mk "DataLogger" 0, Fn.mk "Temperature" (21.5 : ℚ)]] d
        emptyStore).gauges GaugeId.light h u = none) := by
  refine ⟨rfl, rfl, rfl, ?_, ?_, ?_⟩ <;>
    intro h u <;>
    simp [collect_gauges, processModule, processFunction, setGauge, emptyStore]

/-- C6: on a cycle aborted by a DeviceAccessError, the sensor_read_time
duration gauge is left exactly as it was before the cycle: a truncated
duration is never recorded, because the gauge write sits after the
module loop and is never reached. -/
theorem aborted_cycle_read_time_unchanged (mods : List YModule) (k : ℕ)
    (s : Store) :
    (loop_iteration (DevOutcome.err mods k) s).sensor_read_time =
      s.sensor_read_time := by
  show (collect_gauges_aborted mods k s).sensor_read_time = _
  unfold collect_gauges_aborted
  rw [applyWrites_sensor_read_time]

/-- C7: across any sequence of cycles, successful or aborted, the
sensor_read_passes and yapi_exceptions counters never decrease. -/
theorem counters_monotone (os : List DevOutcome) (s : Store) :
    s.sensor_read_passes ≤ (run_loop os s).sensor_read_passes ∧
      s.yapi_exceptions ≤ (run_loop os s).yapi_exceptions := by
  induction os generalizing s with
  | nil => exact ⟨Nat.le_refl _, Nat.le_refl _⟩
  | cons o os ih =>
      have hstep := loop_iteration_counters o s
      have hrest := ih (loop_iteration o s)
      exact ⟨Nat.le_trans hstep.1 hrest.1, Nat.le_trans hstep.2 hrest.2⟩

/-- C8: running the Collector twice in succession against an unchanged
module list leaves every sensor-value series identical between the two
runs, increments the pass counter by exactly one more, and leaves the
exception counter unchanged; only the duration gauge may differ. -/
theorem collector_idempotent (mods : List YModule) (d1 d2 : ℚ) (s : Store) :
    (collect_gauges mods d2 (collect_gauges mods d1 s)).gauges =
        (collect_gauges mods d1 s).gauges ∧
      (collect_gauges mods d2 (collect_gauges mods d1 s)).sensor_read_passes =
        (collect_gauges mods d1 s).sensor_read_passes + 1 ∧
      (collect_gauges mods d2 (collect_gauges mods d1 s)).yapi_exceptions =
        (collect_gauges mods d1 s).yapi_exceptions := by
  refine ⟨?_, collect_gauges_passes mods d2 _, collect_gauges_yapi mods d2 _⟩
  rw [collect_gauges_gauges mods d2,
    applyWrites_gauges_congr (collect_gauges mods d1 s)
      (applyWrites s (cycleWrites mods)) (collect_gauges_gauges mods d1 s),
    applyWrites_gauges_idem, collect_gauges_gauges mods d1]

/-- C9: when two functions at different indices from 1 on of the same
module report the same supported type (here Temperature), both emit a
write under the same synthesized hardware_id, and after the pass the
published series holds the value of the one at the higher index
(last-index-wins). -/
theorem same_type_last_index_wins (m : YModule) (s : Store) (f0 f : Fn)
    (l1 l2 : List Fn)
    (hfs : m.functions = f0 :: (l1 ++ f :: l2))
    (hft : f.ftype = "Temperature")
    (hl2 : ∀ g ∈ l2, g.ftype ≠ "Temperature") :
    (Write.mk GaugeId.temperature (m.friendlyName ++ ".temperature") "Celsius"
        f.value ∈ moduleWrites m) ∧
      (∀ g ∈ l1, g.ftype = "Temperature" →
        Write.mk GaugeId.temperature (m.friendlyName ++ ".temperature")
          "Celsius" g.value ∈ moduleWrites m) ∧
      (processModule s m).gauges GaugeId.temperature
          (m.friendlyName ++ ".temperature") "Celsius" = some f.value := by
  have hdrop : m.functions.drop 1 = l1 ++ f :: l2 := by rw [hfs]; rfl
  refine ⟨temp_write_mem m f ?_ hft, ?_, ?_⟩
  · rw [hdrop]
    exact List.mem_append_right l1 (List.mem_cons_self f l2)
  · intro g hg hgt
    refine temp_write_mem m g ?_ hgt
    rw [hdrop]
    exact List.mem_append_left _ hg
  · rw [processModule_eq_applyWrites, applyWrites_gauges]
    have hflat : lastVal GaugeId.temperature (m.friendlyName ++ ".temperature")
        "Celsius" ((m.functions.drop 1).flatMap (fnWrites m.friendlyName)) =
        some f.value := by
      rw [hdrop, List.flatMap_append, lastVal_append, List.flatMap_cons,
        lastVal_append, lastVal_temp_flatMap_none m.friendlyName l2 hl2,
        lastVal_temp_fnWrites, if_pos hft]
    unfold moduleWrites
    simp only [lastVal, hflat]

/-- Witness for C9: a module with Temperature functions of values 20 and
25 at indices 1 and 2; the published series holds 25. -/
theorem same_type_last_index_wins_witness :
    ((YModule.mk "SER" "box" 7 1
        [Fn.mk "DataLogger" 0, Fn.mk "Temperature" 20,
          Fn.mk "Temperature" 25]).functions =
      Fn.mk "DataLogger" 0 ::
        ([Fn.mk "Temperature" 20] ++ Fn.mk "Temperature" 25 :: [])) ∧
      (processModule emptyStore
          (YModule.mk "SER" "box" 7 1
            [Fn.mk "DataLogger" 0, Fn.mk "Temperature" 20,
              Fn.mk "Temperature" 25])).gauges GaugeId.temperature
          "box.temperature" "Celsius" = some 25 := by
  have h := same_type_last_index_wins
    (YModule.mk "SER" "box" 7 1
      [Fn.mk "DataLogger" 0, Fn.mk "Temperature" 20, Fn.mk "Temperature" 25])
    emptyStore (Fn.mk "DataLogger" 0) (Fn.mk "Temperature" 25)
    [Fn.mk "Temperature" 20] [] rfl rfl (by simp)
  exact ⟨rfl, h.2.2⟩

/-- C10: metric series identity depends only on the friendly name and
the function type tags, never on the serial: changing a module's serial
changes none of its writes; two modules with the same friendly name and
the same type tags target the same (name, label) keys; and when two
such modules are enumerated in the same cycle, each series key the later
one writes ends up exactly as if only the later one were present (its
values silently replace the earlier ones). -/
theorem series_identity_ignores_serial (m1 m2 : YModule) (s : Store)
    (g : GaugeId) (hid u : String)
    (hname : m1.friendlyName = m2.friendlyName)
    (htypes : (m1.functions.drop 1).map Fn.ftype =
      (m2.functions.drop 1).map Fn.ftype) :
    (∀ srl, moduleWrites { m1 with serial := srl } = moduleWrites m1) ∧
      (moduleWrites m1).map writeKey = (moduleWrites m2).map writeKey ∧
      (lastVal g hid u (moduleWrites m2) ≠ none →
        (processModule (processModule s m1) m2).gauges g hid u =
          (processModule s m2).gauges g hid u) := by
  refine ⟨fun srl => rfl, ?_, ?_⟩
  · rw [map_writeKey_moduleWrites, map_writeKey_moduleWrites, hname, htypes]
  · intro hne
    rw [processModule_eq_applyWrites, processModule_eq_applyWrites s m2,
      processModule_eq_applyWrites s m1,
      applyWrites_gauges g hid u (moduleWrites m2),
      applyWrites_gauges g hid u (moduleWrites m2) s]
    cases hl : lastVal g hid u (moduleWrites m2) with
    | some v => rfl
    | none => exact absurd hl hne

/-- Witness for C10: two modules named dup with different serials and
the same single Temperature function type; the shared usb_current key
ends up with the value of the later module. -/
theorem series_identity_ignores_serial_witness :
    ((YModule.mk "SER-1" "dup" 10 1
          [Fn.mk "DataLogger" 0, Fn.mk "Temperature" 20]).friendlyName =
        (YModule.mk "SER-2" "dup" 30 2
          [Fn.mk "DataLogger" 9, Fn.mk "Temperature" 22]).friendlyName) ∧
      (moduleWrites (YModule.mk "SER-1" "dup" 10 1
          [Fn.mk "DataLogger" 0, Fn.mk "Temperature" 20])).map writeKey =
        (moduleWrites (YModule.mk "SER-2" "dup" 30 2
          [Fn.mk "DataLogger" 9, Fn.mk "Temperature" 22])).map writeKey ∧
      (processModule
          (processModule emptyStore
            (YModule.mk "SER-1" "dup" 10 1
              [Fn.mk "DataLogger" 0, Fn.mk "Temperature" 20]))
          (YModule.mk "SER-2" "dup" 30 2
            [Fn.mk "DataLogger" 9, Fn.mk "Temperature" 22])).gauges
          GaugeId.usb_current "dup.current" "mA" =
        (processModule emptyStore
          (YModule.mk "SER-2" "dup" 30 2
            [Fn.mk "DataLogger" 9, Fn.mk "Temperature" 22])).gauges
          GaugeId.usb_current "dup.current" "mA" := by
  have h := series_identity_ignores_serial
    (YModule.mk "SER-1" "dup" 10 1 [Fn.mk "DataLogger" 0, Fn.mk "Temperature" 20])
    (YModule.mk "SER-2" "dup" 30 2 [Fn.mk "DataLogger" 9, Fn.mk "Temperature" 22])
    emptyStore GaugeId.usb_current "dup.current" "mA" rfl rfl
  exact ⟨rfl, h.2.1, h.2.2 (by decide)⟩

end YoctoExporter
